import Mathlib

/-!
Verification of the emission-calculation core of the CarbonEmissionPage
repository (`src/utils/emission_calculator.py`), shallowly embedded over ℚ.
Python floats are modelled as exact rationals; a Python `ZeroDivisionError`
is modelled by an `Option` result; Python's `float("inf")` payback sentinel
is modelled by `none` in an `Option ℚ` field.
-/

namespace EmissionCalculator

/-- `self.diesel_factor = 2.68` (kg CO2 per liter). -/
def diesel_factor : ℚ := 268/100

/-- `self.diesel_density = 0.832` (kg/liter). -/
def diesel_density : ℚ := 832/1000

/-- `self.gallon_to_liter = 3.78541`. -/
def gallon_to_liter : ℚ := 378541/100000

/-- `self.grid_factors`: Germany-only grid factors (kg CO2 per kWh),
in the insertion order of the Python dict. -/
def grid_factors : List (String × ℚ) :=
  [("Deutschland 2025", 366/1000),
   ("Deutschland Kohleausstieg 2030", 280/1000),
   ("Deutschland Erneuerbar 2035", 150/1000),
   ("Bayern (Wasser/Atom)", 220/1000),
   ("Nordrhein-Westfalen (Kohle)", 450/1000),
   ("Schleswig-Holstein (Wind)", 180/1000),
   ("Baden-Württemberg", 250/1000),
   ("Österreich", 140/1000),
   ("Polen", 690/1000),
   ("EU-Durchschnitt", 295/1000)]

/-- Python's `str.lower()` on one character, restricted to the alphabets
actually occurring in this program: ASCII `A`–`Z` and the Latin-1 uppercase
letters `À`–`Þ` (excluding `×`) map 32 code points up, as CPython does. -/
def pyLowerChar (c : Char) : Char :=
  if ('A' ≤ c ∧ c ≤ 'Z') ∨ ((0xC0 ≤ c.val ∧ c.val ≤ 0xDE) ∧ c.val ≠ 0xD7) then
    Char.ofNat (c.toNat + 32)
  else c

/-- Python's `str.lower()` on a string (for the program's alphabet). -/
def pyLower (s : String) : String := ⟨s.data.map pyLowerChar⟩

/-- Python's `str.strip()`: remove leading and trailing whitespace. -/
def pyStrip (s : String) : String :=
  ⟨((s.data.dropWhile Char.isWhitespace).reverse.dropWhile
      Char.isWhitespace).reverse⟩

/-- Python's `str.strip().lower()` normalisation used for grid lookup keys. -/
def normKey (s : String) : String := pyLower (pyStrip s)

/-- `self._grid_factors_lc = {k.strip().lower(): v for k, v in self.grid_factors.items()}`. -/
def grid_factors_lc : List (String × ℚ) :=
  grid_factors.map (fun p => (normKey p.1, p.2))

/-- A `grid_mix` argument: either a number (Python `int`/`float`) used
directly, or a region-name string. -/
inductive GridMix where
  | num (q : ℚ)
  | name (s : String)
deriving DecidableEq

/-- Association-list lookup, as Python `dict.get` on `_grid_factors_lc`. -/
def dictGet (l : List (String × ℚ)) (k : String) : Option ℚ :=
  match l with
  | [] => none
  | p :: rest => if p.1 = k then some p.2 else dictGet rest k

/-- `EmissionCalculator._grid_factor`: numbers pass through, strings are
stripped, lowercased and looked up; `none` when the key is absent. -/
def _grid_factor (grid_name : GridMix) : Option ℚ :=
  match grid_name with
  | .num q => some q
  | .name s => dictGet grid_factors_lc (normKey s)

/-- `self.pollutant_ratios["NOx"]["diesel"]`. -/
def nox_diesel : ℚ := 15/1000
/-- `self.pollutant_ratios["PM2.5"]["diesel"]`. -/
def pm25_diesel : ℚ := 8/10000
/-- `self.pollutant_ratios["SO2"]["diesel"]`. -/
def so2_diesel : ℚ := 3/10000
/-- `self.pollutant_ratios["NOx"]["electric"]`. -/
def nox_electric : ℚ := 2/1000
/-- `self.pollutant_ratios["PM2.5"]["electric"]`. -/
def pm25_electric : ℚ := 1/10000
/-- `self.pollutant_ratios["SO2"]["electric"]`. -/
def so2_electric : ℚ := 1/1000

/-- `self.fuel_cycle_factors["diesel"]["total_upstream"]`. -/
def diesel_total_upstream : ℚ := 135/100
/-- `self.fuel_cycle_factors["electricity"]["transmission_losses"]`. -/
def transmission_losses : ℚ := 5/100
/-- `self.fuel_cycle_factors["electricity"]["grid_infrastructure"]`. -/
def grid_infrastructure : ℚ := 2/100

/-- `self.lifecycle_emissions["diesel"]` together with the operation keys the
calculation functions add to the copied dict. -/
structure DieselBreakdown where
  raw_material_extraction : ℚ
  engine_production : ℚ
  vehicle_assembly : ℚ
  transportation : ℚ
  end_of_life : ℚ
  total_manufacturing : ℚ
  operation_direct : ℚ
  operation_upstream : ℚ
  total_operation : ℚ
deriving DecidableEq

/-- `self.lifecycle_emissions["electric"]` together with the operation keys
the calculation functions add to the copied dict. -/
structure ElectricBreakdown where
  raw_material_extraction : ℚ
  battery_production : ℚ
  vehicle_assembly : ℚ
  transportation : ℚ
  end_of_life : ℚ
  total_manufacturing : ℚ
  operation_direct : ℚ
  operation_upstream : ℚ
  total_operation : ℚ
deriving DecidableEq

/-- The dict returned by `calculate_diesel_emissions` (and, without the
`assumptions` echo, by `calculate_diesel_emissions_full`). -/
structure DieselResult where
  co2_annual : ℚ
  co2_annual_direct : ℚ
  co2_annual_upstream : ℚ
  co2_lifetime : ℚ
  total_lifecycle : ℚ
  nox_annual : ℚ
  pm25_annual : ℚ
  so2_annual : ℚ
  fuel_annual_gallons : ℚ
  fuel_annual_liters : ℚ
  lifecycle_breakdown : DieselBreakdown
  manufacturing_emissions : ℚ
deriving DecidableEq

/-- The dict returned by `calculate_ev_emissions`. -/
structure EVResult where
  co2_annual : ℚ
  co2_annual_direct : ℚ
  co2_annual_upstream : ℚ
  co2_lifetime : ℚ
  total_lifecycle : ℚ
  nox_annual : ℚ
  pm25_annual : ℚ
  so2_annual : ℚ
  electricity_annual_kwh : ℚ
  grid_factor : ℚ
  transmission_factor : ℚ
  lifecycle_breakdown : ElectricBreakdown
  manufacturing_emissions : ℚ
deriving DecidableEq

/-- `calculate_diesel_emissions(annual_mileage, mpg, years=15)`.
`none` models the `ZeroDivisionError` Python raises when `mpg == 0`. -/
def calculate_diesel_emissions (annual_mileage mpg years : ℚ) :
    Option DieselResult :=
  if mpg = 0 then none else
  let annual_gallons := annual_mileage / mpg
  let annual_liters := annual_gallons * gallon_to_liter
  let co2_annual_direct := annual_liters * diesel_factor
  let co2_annual_upstream := annual_liters * diesel_total_upstream
  let co2_annual := co2_annual_direct + co2_annual_upstream
  let co2_lifetime := co2_annual * years
  let lifecycle_breakdown : DieselBreakdown :=
    { raw_material_extraction := 1400
      engine_production := 2800
      vehicle_assembly := 2300
      transportation := 350
      end_of_life := -250
      total_manufacturing := 6600
      operation_direct := co2_annual_direct * years
      operation_upstream := co2_annual_upstream * years
      total_operation := co2_lifetime }
  let total_lifecycle := co2_lifetime + lifecycle_breakdown.total_manufacturing
  some
    { co2_annual := co2_annual
      co2_annual_direct := co2_annual_direct
      co2_annual_upstream := co2_annual_upstream
      co2_lifetime := co2_lifetime
      total_lifecycle := total_lifecycle
      nox_annual := co2_annual * nox_diesel
      pm25_annual := co2_annual * pm25_diesel
      so2_annual := co2_annual * so2_diesel
      fuel_annual_gallons := annual_gallons
      fuel_annual_liters := annual_liters
      lifecycle_breakdown := lifecycle_breakdown
      manufacturing_emissions := lifecycle_breakdown.total_manufacturing }

/-- `calculate_ev_emissions(annual_mileage, kwh_per_100_miles, grid_mix, years=15)`.
Total (no division by a user value occurs). -/
def calculate_ev_emissions (annual_mileage kwh_per_100_miles : ℚ)
    (grid_mix : GridMix) (years : ℚ) : EVResult :=
  let annual_kwh := (annual_mileage / 100) * kwh_per_100_miles
  let grid_factor :=
    match _grid_factor grid_mix with
    | some g => g
    | none => 366/1000
  let co2_annual_direct := annual_kwh * grid_factor
  let transmission_factor := 1 + transmission_losses
  let co2_annual_upstream := annual_kwh * grid_infrastructure
  let co2_annual := co2_annual_direct * transmission_factor + co2_annual_upstream
  let co2_lifetime := co2_annual * years
  let lifecycle_breakdown : ElectricBreakdown :=
    { raw_material_extraction := 2300
      battery_production := 3800
      vehicle_assembly := 2200
      transportation := 350
      end_of_life := -600
      total_manufacturing := 8050
      operation_direct := co2_annual_direct * transmission_factor * years
      operation_upstream := co2_annual_upstream * years
      total_operation := co2_lifetime }
  let total_lifecycle := co2_lifetime + lifecycle_breakdown.total_manufacturing
  { co2_annual := co2_annual
    co2_annual_direct := co2_annual_direct * transmission_factor
    co2_annual_upstream := co2_annual_upstream
    co2_lifetime := co2_lifetime
    total_lifecycle := total_lifecycle
    nox_annual := co2_annual * nox_electric
    pm25_annual := co2_annual * pm25_electric
    so2_annual := co2_annual * so2_electric
    electricity_annual_kwh := annual_kwh
    grid_factor := grid_factor
    transmission_factor := transmission_factor
    lifecycle_breakdown := lifecycle_breakdown
    manufacturing_emissions := lifecycle_breakdown.total_manufacturing }

/-- The result of `calculate_diesel_emissions_full`, including the
`assumptions` echoes relevant to the modifiers. -/
structure DieselFullResult where
  core : DieselResult
  fuel_type_multiplier : ℚ
  consumption_modifier : ℚ
  tailpipe_per_litre : ℚ
  upstream_per_litre : ℚ
deriving DecidableEq

/-- `calculate_diesel_emissions_full(annual_mileage, mpg, years=15,
fuel_type="Regular Diesel", engine_size_l=2.0, emission_standard="Euro 6",
turbo=True)`.  `none` models the `ZeroDivisionError` when `mpg == 0`.
The Python guard `if engine_size_l and engine_size_l > 2.5` is truthiness of
`engine_size_l` (nonzero) conjoined with the comparison; `x > 2.5` already
implies `x ≠ 0`, so only the comparison remains. -/
def calculate_diesel_emissions_full (annual_mileage mpg years : ℚ)
    (fuel_type : String) (engine_size_l : ℚ) (emission_standard : String)
    (turbo : Bool) : Option DieselFullResult :=
  if mpg = 0 then none else
  let fuel_type_mult : ℚ :=
    if fuel_type = "Regular Diesel" then 1
    else if fuel_type = "Bio-Diesel (B20)" then 9/10
    else if fuel_type = "Renewable Diesel" then 2/5
    else 1
  let consumption_mod : ℚ :=
    (if engine_size_l ≠ 0 ∧ engine_size_l > 5/2 then (1:ℚ) * (105/100) else 1)
      * (if turbo then 97/100 else 1)
      * (if emission_standard = "Euro 5" then 102/100 else 1)
  let annual_gallons := annual_mileage / mpg * consumption_mod
  let annual_liters := annual_gallons * gallon_to_liter
  let tailpipe_per_l := diesel_factor * fuel_type_mult
  let upstream_per_l := diesel_total_upstream * fuel_type_mult
  let co2_annual_direct := annual_liters * tailpipe_per_l
  let co2_annual_upstream := annual_liters * upstream_per_l
  let co2_annual := co2_annual_direct + co2_annual_upstream
  let co2_lifetime := co2_annual * years
  let lifecycle_breakdown : DieselBreakdown :=
    { raw_material_extraction := 1400
      engine_production := 2800
      vehicle_assembly := 2300
      transportation := 350
      end_of_life := -250
      total_manufacturing := 6600
      operation_direct := co2_annual_direct * years
      operation_upstream := co2_annual_upstream * years
      total_operation := co2_lifetime }
  let total_lifecycle := co2_lifetime + lifecycle_breakdown.total_manufacturing
  some
    { core :=
        { co2_annual := co2_annual
          co2_annual_direct := co2_annual_direct
          co2_annual_upstream := co2_annual_upstream
          co2_lifetime := co2_lifetime
          total_lifecycle := total_lifecycle
          nox_annual := co2_annual * nox_diesel
          pm25_annual := co2_annual * pm25_diesel
          so2_annual := co2_annual * so2_diesel
          fuel_annual_gallons := annual_gallons
          fuel_annual_liters := annual_liters
          lifecycle_breakdown := lifecycle_breakdown
          manufacturing_emissions := lifecycle_breakdown.total_manufacturing }
      fuel_type_multiplier := fuel_type_mult
      consumption_modifier := consumption_mod
      tailpipe_per_litre := tailpipe_per_l
      upstream_per_litre := upstream_per_l }

/-- The four pollutant fields `get_environmental_impact_score` reads from its
`emissions_data` dict argument. -/
structure ScoreInput where
  co2_annual : ℚ
  nox_annual : ℚ
  pm25_annual : ℚ
  so2_annual : ℚ
deriving DecidableEq

/-- Python's `round` to the nearest integer: round-half-to-even. -/
def pyRoundInt (x : ℚ) : ℤ :=
  if x - ⌊x⌋ < 1/2 then ⌊x⌋
  else if x - ⌊x⌋ > 1/2 then ⌊x⌋ + 1
  else if ⌊x⌋ % 2 = 0 then ⌊x⌋ else ⌊x⌋ + 1

/-- Python's `round(x, 1)`. -/
def pyRound1 (x : ℚ) : ℚ := (pyRoundInt (x * 10) : ℚ) / 10

/-- `get_environmental_impact_score(emissions_data)`. -/
def get_environmental_impact_score (d : ScoreInput) : ℚ :=
  let co2_score := min 100 (d.co2_annual / 8000 * 100)
  let nox_score := min 100 (d.nox_annual / 120 * 100)
  let pm25_score := min 100 (d.pm25_annual / 6 * 100)
  let so2_score := min 100 (d.so2_annual / (24/10) * 100)
  pyRound1 (co2_score * (4/10) + nox_score * (2/10) + pm25_score * (3/10)
    + so2_score * (1/10))

/-- The dict returned by `calculate_lifecycle_analysis`.
`carbon_payback_years = none` models the Python `float("inf")` sentinel. -/
structure LifecycleAnalysis where
  ev_results : EVResult
  diesel_results : DieselResult
  carbon_payback_years : Option ℚ
  annual_savings : ℚ
  ev_phase_emissions : List ℚ
  diesel_phase_emissions : List ℚ
  total_savings_15_years : ℚ
  manufacturing_difference : ℚ
deriving DecidableEq

/-- `calculate_lifecycle_analysis(annual_mileage, ev_efficiency,
diesel_efficiency, grid_mix_factor, years=15)`.  `none` models the
`ZeroDivisionError` raised inside `calculate_diesel_emissions` when
`diesel_efficiency == 0`. -/
def calculate_lifecycle_analysis (annual_mileage ev_efficiency
    diesel_efficiency : ℚ) (grid_mix_factor : GridMix) (years : ℚ) :
    Option LifecycleAnalysis :=
  let ev_results := calculate_ev_emissions annual_mileage ev_efficiency
    grid_mix_factor years
  match calculate_diesel_emissions annual_mileage diesel_efficiency years with
  | none => none
  | some diesel_results =>
    let annual_savings := diesel_results.co2_annual - ev_results.co2_annual
    let manufacturing_difference :=
      ev_results.manufacturing_emissions - diesel_results.manufacturing_emissions
    let carbon_payback_years : Option ℚ :=
      if annual_savings > 0 then some (manufacturing_difference / annual_savings)
      else none
    some
      { ev_results := ev_results
        diesel_results := diesel_results
        carbon_payback_years := carbon_payback_years
        annual_savings := annual_savings
        ev_phase_emissions :=
          [ev_results.lifecycle_breakdown.raw_material_extraction,
           ev_results.lifecycle_breakdown.battery_production
             + ev_results.lifecycle_breakdown.vehicle_assembly
             + ev_results.lifecycle_breakdown.transportation,
           ev_results.co2_lifetime,
           ev_results.lifecycle_breakdown.end_of_life,
           ev_results.total_lifecycle]
        diesel_phase_emissions :=
          [diesel_results.lifecycle_breakdown.raw_material_extraction,
           diesel_results.lifecycle_breakdown.engine_production
             + diesel_results.lifecycle_breakdown.vehicle_assembly
             + diesel_results.lifecycle_breakdown.transportation,
           diesel_results.co2_lifetime,
           diesel_results.lifecycle_breakdown.end_of_life,
           diesel_results.total_lifecycle]
        total_savings_15_years := annual_savings * years
        manufacturing_difference := manufacturing_difference }

/-- `get_grid_decarbonization_projection(annual_mileage, ev_efficiency,
years=15)`: for each grid region, the list of annual emissions for years
`1 .. max(1, years)`, with linear decarbonization
`1 - 0.6 * (year - 1) / max(1, years - 1)` and the factor floored at 0. -/
def get_grid_decarbonization_projection (annual_mileage ev_efficiency : ℚ)
    (years : ℤ) : List (String × List ℚ) :=
  let kwh_per_mile := ev_efficiency / 100
  grid_factors.map (fun p =>
    (p.1, (List.range (max 1 years).toNat).map (fun i =>
      let year : ℤ := (i : ℤ) + 1
      let decarb : ℚ := 1 - (6/10) * ((year : ℚ) - 1) / ((max 1 (years - 1) : ℤ) : ℚ)
      let factor : ℚ := max 0 (p.2 * decarb)
      let annual_kwh := annual_mileage * kwh_per_mile
      annual_kwh * factor)))

/-- C1: for positive annual mileage, positive mpg and positive years,
`calculate_diesel_emissions` succeeds and returns direct annual emissions
`(mileage/mpg) * 3.78541 * 2.68`, upstream annual emissions
`(mileage/mpg) * 3.78541 * 1.35`, their sum as the annual total, and
`annual total * years` as the lifetime total. -/
theorem C1_diesel_formula (m mpg y : ℚ) (hm : 0 < m) (hmpg : 0 < mpg)
    (hy : 0 < y) :
    ∃ r, calculate_diesel_emissions m mpg y = some r ∧
      r.co2_annual_direct = m / mpg * 3.78541 * 2.68 ∧
      r.co2_annual_upstream = m / mpg * 3.78541 * 1.35 ∧
      r.co2_annual = m / mpg * 3.78541 * 2.68 + m / mpg * 3.78541 * 1.35 ∧
      r.co2_annual = r.co2_annual_direct + r.co2_annual_upstream ∧
      r.co2_lifetime = r.co2_annual * y := by
  refine ⟨_, by rw [calculate_diesel_emissions, if_neg hmpg.ne'], ?_, ?_, ?_, ?_, ?_⟩ <;>
    norm_num [gallon_to_liter, diesel_factor, diesel_total_upstream]

/-- C1 witness: the concrete scenario mileage=12000, mpg=30, years=15. -/
theorem C1_diesel_formula_witness :
    (calculate_diesel_emissions 12000 30 15).map DieselResult.co2_annual
      = some (12000 / 30 * 3.78541 * 2.68 + 12000 / 30 * 3.78541 * 1.35) := by
  obtain ⟨r, hr, _, _, h, _, _⟩ :=
    C1_diesel_formula 12000 30 15 (by norm_num) (by norm_num) (by norm_num)
  rw [hr]
  exact congrArg some h

/-- C2: for positive annual mileage, positive kWh-per-100-miles efficiency and
any numeric grid factor `g`, `calculate_ev_emissions` returns annual energy
`(mileage/100) * efficiency` and an annual CO2 total of
`annual_kwh * g * 1.05 + annual_kwh * 0.02`, with lifetime `annual * years`. -/
theorem C2_ev_formula (m eff g y : ℚ) (hm : 0 < m) (heff : 0 < eff) :
    (calculate_ev_emissions m eff (GridMix.num g) y).electricity_annual_kwh
      = m / 100 * eff ∧
    (calculate_ev_emissions m eff (GridMix.num g) y).co2_annual
      = m / 100 * eff * g * 1.05 + m / 100 * eff * 0.02 ∧
    (calculate_ev_emissions m eff (GridMix.num g) y).co2_lifetime
      = (m / 100 * eff * g * 1.05 + m / 100 * eff * 0.02) * y := by
  refine ⟨rfl, ?_, ?_⟩ <;>
    norm_num [calculate_ev_emissions, _grid_factor, transmission_losses,
      grid_infrastructure]

/-- C2 witness: the concrete scenario mileage=12000, efficiency=34.0,
grid factor 0.366, years=15. -/
theorem C2_ev_formula_witness :
    (calculate_ev_emissions 12000 34 (GridMix.num 0.366) 15).co2_annual
      = 12000 / 100 * 34 * 0.366 * 1.05 + 12000 / 100 * 34 * 0.02 := by
  obtain ⟨-, h, -⟩ := C2_ev_formula 12000 34 0.366 15 (by norm_num) (by norm_num)
  exact h

/-- C9: `get_grid_decarbonization_projection` with `years = 1` returns, for
every region, exactly one yearly value equal to the undiscounted current-year
computation `annual_kwh * current intensity`, with no interpolation applied
(and in particular no division by zero in the interpolation denominator). -/
theorem C9_projection_one_year (m eff : ℚ) :
    get_grid_decarbonization_projection m eff 1
      = grid_factors.map (fun p => (p.1, [m * (eff / 100) * p.2])) := by
  rw [get_grid_decarbonization_projection, grid_factors]
  norm_num [show List.range 1 = [0] from rfl, max_def]

/-- C10: every result of `calculate_diesel_emissions` and
`calculate_ev_emissions` satisfies, on its returned fields,
`co2_annual = co2_annual_direct + co2_annual_upstream`,
`co2_lifetime = co2_annual * years`,
`lifecycle_breakdown.total_operation = co2_lifetime`, and
`total_lifecycle = co2_lifetime + manufacturing_emissions`. -/
theorem C10_record_consistency (m mpg eff y : ℚ) (g : GridMix)
    (hmpg : mpg ≠ 0) :
    ∃ rd, calculate_diesel_emissions m mpg y = some rd ∧
      rd.co2_annual = rd.co2_annual_direct + rd.co2_annual_upstream ∧
      rd.co2_lifetime = rd.co2_annual * y ∧
      rd.lifecycle_breakdown.total_operation = rd.co2_lifetime ∧
      rd.total_lifecycle = rd.co2_lifetime + rd.manufacturing_emissions ∧
      (calculate_ev_emissions m eff g y).co2_annual
        = (calculate_ev_emissions m eff g y).co2_annual_direct
          + (calculate_ev_emissions m eff g y).co2_annual_upstream ∧
      (calculate_ev_emissions m eff g y).co2_lifetime
        = (calculate_ev_emissions m eff g y).co2_annual * y ∧
      (calculate_ev_emissions m eff g y).lifecycle_breakdown.total_operation
        = (calculate_ev_emissions m eff g y).co2_lifetime ∧
      (calculate_ev_emissions m eff g y).total_lifecycle
        = (calculate_ev_emissions m eff g y).co2_lifetime
          + (calculate_ev_emissions m eff g y).manufacturing_emissions := by
  rw [calculate_diesel_emissions, if_neg hmpg]
  exact ⟨_, rfl, rfl, rfl, rfl, rfl, rfl, rfl, rfl, rfl⟩

/-- C10 witness: the record-consistency invariant at mileage=12000, mpg=30,
efficiency=34, grid factor 0.366, years=15, on the EV result. -/
theorem C10_record_consistency_witness :
    (calculate_ev_emissions 12000 34 (GridMix.num 0.366) 15).co2_annual
      = (calculate_ev_emissions 12000 34 (GridMix.num 0.366) 15).co2_annual_direct
        + (calculate_ev_emissions 12000 34 (GridMix.num 0.366) 15).co2_annual_upstream := by
  obtain ⟨rd, -, -, -, -, -, h, -, -, -⟩ :=
    C10_record_consistency 12000 30 34 15 (GridMix.num 0.366) (by norm_num)
  exact h

/-- C4: whenever `calculate_lifecycle_analysis` returns a result, the carbon
payback years equal `manufacturing_difference / annual_savings` when the
annual savings are strictly positive, are the infinite/no-payback sentinel
(`none`, modelling Python's `float("inf")`) when the savings are zero or
negative, and are never a negative number (and never an error). -/
theorem C4_payback (m e d y : ℚ) (g : GridMix) (hd : d ≠ 0) :
    ∃ r, calculate_lifecycle_analysis m e d g y = some r ∧
      (0 < r.annual_savings →
        r.carbon_payback_years
          = some (r.manufacturing_difference / r.annual_savings)) ∧
      (r.annual_savings ≤ 0 → r.carbon_payback_years = none) ∧
      (∀ p, r.carbon_payback_years = some p → 0 < p) := by
  simp only [calculate_lifecycle_analysis, calculate_diesel_emissions, if_neg hd]
  refine ⟨_, rfl, ?_, ?_, ?_⟩
  · intro hs
    dsimp only at hs ⊢
    rw [if_pos hs]
  · intro hs
    dsimp only at hs ⊢
    rw [if_neg (not_lt.mpr hs)]
  · intro p hp
    dsimp only at hp
    split at hp
    · rename_i hs
      obtain rfl := (Option.some.inj hp).symm
      exact div_pos (by norm_num [calculate_ev_emissions]) hs
    · exact absurd hp (by simp)

/-- C4 witness: at mileage=12000, EV efficiency=34, diesel mpg=30, grid
factor 0.366, years=15 the savings are positive and the payback is the
positive number 1450 / (111313423/25000). -/
theorem C4_payback_witness :
    (calculate_lifecycle_analysis 12000 34 30 (GridMix.num 0.366) 15).map
      LifecycleAnalysis.carbon_payback_years = some (some (36250000 / 111313423)) := by
  obtain ⟨r, hr, h1, h2, h3⟩ :=
    C4_payback 12000 34 30 15 (GridMix.num 0.366) (by norm_num)
  have hs : r.annual_savings = 111313423 / 25000 := by
    have hc : (calculate_lifecycle_analysis 12000 34 30 (GridMix.num 0.366) 15).map
        LifecycleAnalysis.annual_savings = some (111313423 / 25000) := by
      norm_num [calculate_lifecycle_analysis, calculate_diesel_emissions,
        calculate_ev_emissions, _grid_factor, gallon_to_liter, diesel_factor,
        diesel_total_upstream, transmission_losses, grid_infrastructure]
    rw [hr] at hc
    exact Option.some.inj hc
  have hmd : r.manufacturing_difference = 1450 := by
    have hc : (calculate_lifecycle_analysis 12000 34 30 (GridMix.num 0.366) 15).map
        LifecycleAnalysis.manufacturing_difference = some 1450 := by
      norm_num [calculate_lifecycle_analysis, calculate_diesel_emissions,
        calculate_ev_emissions, _grid_factor, gallon_to_liter, diesel_factor,
        diesel_total_upstream, transmission_losses, grid_infrastructure]
    rw [hr] at hc
    exact Option.some.inj hc
  have hpay := h1 (by rw [hs]; norm_num)
  rw [hr]
  show some r.carbon_payback_years = _
  rw [hpay, hmd, hs]
  norm_num

/-- C3 counterexample: at annual mileage 12000, mpg −1, years 15 — a
non-positive efficiency — `calculate_diesel_emissions` does not fail with a
validation error: it returns a result, and that result's annual CO2 total is
a garbage negative number. -/
theorem C3_counterexample :
    (calculate_diesel_emissions 12000 (-1) 15).isSome = true ∧
    ((calculate_diesel_emissions 12000 (-1) 15).map DieselResult.co2_annual).getD 0
      < 0 := by
  refine ⟨rfl, ?_⟩
  norm_num [calculate_diesel_emissions, gallon_to_liter, diesel_factor,
    diesel_total_upstream]

/-- C3 amended: the calculation functions perform no parameter validation.
`calculate_diesel_emissions` fails only at efficiency exactly 0, by the
`ZeroDivisionError` raised at the division itself (there is no
`InvalidParameter` check before it); for every nonzero efficiency it returns
a numeric result, which for negative efficiency and positive mileage is a
garbage negative annual CO2 total; `calculate_ev_emissions` never fails and
likewise returns a garbage negative annual total for negative efficiency,
positive mileage and a non-negative numeric grid factor. -/
theorem C3_amended (m mpg y eff q : ℚ) (hmpg : mpg ≠ 0) :
    calculate_diesel_emissions m 0 y = none ∧
    (∃ r, calculate_diesel_emissions m mpg y = some r ∧
      (mpg < 0 → 0 < m → r.co2_annual < 0)) ∧
    (eff < 0 → 0 < m → 0 ≤ q →
      (calculate_ev_emissions m eff (GridMix.num q) y).co2_annual < 0) := by
  refine ⟨by simp [calculate_diesel_emissions], ?_, ?_⟩
  · rw [calculate_diesel_emissions, if_neg hmpg]
    refine ⟨_, rfl, fun hneg hm => ?_⟩
    have hq : m / mpg < 0 := div_neg_of_pos_of_neg hm hneg
    dsimp only
    rw [gallon_to_liter, diesel_factor, diesel_total_upstream]
    nlinarith
  · intro heff hm hq
    have ht : m / 100 * eff < 0 :=
      mul_neg_of_pos_of_neg (by positivity) heff
    have h1 : m / 100 * eff * q ≤ 0 := mul_nonpos_of_nonpos_of_nonneg ht.le hq
    simp only [calculate_ev_emissions, _grid_factor, transmission_losses,
      grid_infrastructure]
    nlinarith

/-- C3 amended witness: zero efficiency fails (division error, not a
validation error) and negative efficiency yields a negative EV annual CO2
total at mileage 12000, grid factor 0.366, years 15. -/
theorem C3_amended_witness :
    calculate_diesel_emissions 12000 0 15 = none ∧
    (calculate_ev_emissions 12000 (-1) (GridMix.num 0.366) 15).co2_annual < 0 := by
  obtain ⟨h0, -, hev⟩ :=
    C3_amended 12000 (-1) 15 (-1) 0.366 (by norm_num)
  exact ⟨h0, hev (by norm_num) (by norm_num) (by norm_num)⟩

/-- Helper: the grid factor recorded by `calculate_ev_emissions` is the
resolved `_grid_factor` with default `0.366` (Deutschland 2025). -/
theorem ev_grid_factor_eq (m eff y : ℚ) (gm : GridMix) :
    (calculate_ev_emissions m eff gm y).grid_factor
      = (_grid_factor gm).getD (366/1000) := by
  cases h : _grid_factor gm <;> simp [calculate_ev_emissions, h]

/-- Helper: the case/whitespace-insensitive lookup table, fully evaluated. -/
theorem grid_factors_lc_eq :
    grid_factors_lc =
      [("deutschland 2025", 366/1000),
       ("deutschland kohleausstieg 2030", 280/1000),
       ("deutschland erneuerbar 2035", 150/1000),
       ("bayern (wasser/atom)", 220/1000),
       ("nordrhein-westfalen (kohle)", 450/1000),
       ("schleswig-holstein (wind)", 180/1000),
       ("baden-württemberg", 250/1000),
       ("österreich", 140/1000),
       ("polen", 690/1000),
       ("eu-durchschnitt", 295/1000)] := rfl

/-- C5: a numeric grid argument is used directly as the intensity; a string
argument is resolved by a case-insensitive, whitespace-trimmed lookup in the
named-region table (any string normalising to a table key resolves to that
key's intensity); and every unmatched string — in particular
"Nonexistent Region" — silently resolves to the default 0.366 (Deutschland
2025) instead of failing. -/
theorem C5_grid_resolution (m eff y q : ℚ) :
    (calculate_ev_emissions m eff (GridMix.num q) y).grid_factor = q ∧
    (∀ k v, (k, v) ∈ grid_factors → ∀ s, normKey s = normKey k →
      (calculate_ev_emissions m eff (GridMix.name s) y).grid_factor = v) ∧
    (∀ s, dictGet grid_factors_lc (normKey s) = none →
      (calculate_ev_emissions m eff (GridMix.name s) y).grid_factor = 366/1000) ∧
    (calculate_ev_emissions m eff (GridMix.name "Nonexistent Region") y).grid_factor
      = 366/1000 := by
  refine ⟨rfl, ?_, ?_, ?_⟩
  · intro k v hkv s hs
    rw [ev_grid_factor_eq]
    simp only [_grid_factor]
    rw [hs]
    fin_cases hkv <;> rfl
  · intro s hnone
    rw [ev_grid_factor_eq]
    simp only [_grid_factor]
    rw [hnone]
    rfl
  · rw [ev_grid_factor_eq]
    simp only [_grid_factor]
    rw [show dictGet grid_factors_lc (normKey "Nonexistent Region") = none
      from by decide]
    rfl

/-- C5 witness: a case/whitespace-mangled known region resolves to its table
intensity and an unknown region resolves to the default. -/
theorem C5_grid_resolution_witness :
    (calculate_ev_emissions 12000 34 (GridMix.name "  ÖSTERREICH ") 15).grid_factor
      = 140/1000 ∧
    (calculate_ev_emissions 12000 34 (GridMix.name "Nonexistent Region") 15).grid_factor
      = 366/1000 := by
  obtain ⟨-, hmem, -, hdef⟩ := C5_grid_resolution 12000 34 15 0
  exact ⟨hmem "Österreich" (140/1000) (by simp [grid_factors]) _ (by decide), hdef⟩

/-- Helper: round-half-to-even is bounded below by the floor. -/
theorem pyRoundInt_nonneg (x : ℚ) (h : 0 ≤ x) : 0 ≤ pyRoundInt x := by
  have h0 : (0:ℤ) ≤ ⌊x⌋ := Int.floor_nonneg.mpr h
  unfold pyRoundInt
  split_ifs <;> omega

/-- Helper: round-half-to-even never overshoots an integer upper bound. -/
theorem pyRoundInt_le (x : ℚ) (b : ℤ) (h : x ≤ (b:ℚ)) : pyRoundInt x ≤ b := by
  have hfl : ⌊x⌋ ≤ b := by
    have := Int.floor_le_floor h
    rwa [Int.floor_intCast] at this
  have hfx : (⌊x⌋ : ℚ) ≤ x := Int.floor_le x
  unfold pyRoundInt
  split_ifs with h1 h2 h3
  · exact hfl
  · have hlt : ((⌊x⌋:ℚ)) < (b:ℚ) := by linarith
    exact Int.add_one_le_iff.mpr (by exact_mod_cast hlt)
  · exact hfl
  · have hx : x - ⌊x⌋ = 1/2 := le_antisymm (not_lt.mp h2) (not_lt.mp h1)
    have hlt : ((⌊x⌋:ℚ)) < (b:ℚ) := by linarith
    exact Int.add_one_le_iff.mpr (by exact_mod_cast hlt)

/-- Helper: `pyRound1` preserves non-negativity. -/
theorem pyRound1_nonneg (x : ℚ) (h : 0 ≤ x) : 0 ≤ pyRound1 x := by
  unfold pyRound1
  have hn := pyRoundInt_nonneg (x * 10) (by linarith)
  exact div_nonneg (by exact_mod_cast hn) (by norm_num)

/-- Helper: `pyRound1` preserves the upper bound 100. -/
theorem pyRound1_le_100 (x : ℚ) (h : x ≤ 100) : pyRound1 x ≤ 100 := by
  unfold pyRound1
  have hn := pyRoundInt_le (x * 10) 1000 (by push_cast; linarith)
  rw [div_le_iff₀ (by norm_num : (0:ℚ) < 10)]
  have : ((pyRoundInt (x * 10) : ℤ) : ℚ) ≤ 1000 := by exact_mod_cast hn
  linarith

/-- C6: on every emission record with non-negative pollutant fields,
`get_environmental_impact_score` returns the weighted blend
`0.4*co2_score + 0.2*nox_score + 0.3*pm25_score + 0.1*so2_score` (each
sub-score clamped by `min(100, value/reference*100)`, references 8000, 120,
6, 2.4), the result lies in [0,100], and an input with annual CO2 exactly
8000 and all other pollutants zero scores exactly 40.0. -/
theorem C6_impact_score (d : ScoreInput) (h1 : 0 ≤ d.co2_annual)
    (h2 : 0 ≤ d.nox_annual) (h3 : 0 ≤ d.pm25_annual) (h4 : 0 ≤ d.so2_annual) :
    get_environmental_impact_score d
      = pyRound1 (min 100 (d.co2_annual / 8000 * 100) * 0.4
          + min 100 (d.nox_annual / 120 * 100) * 0.2
          + min 100 (d.pm25_annual / 6 * 100) * 0.3
          + min 100 (d.so2_annual / 2.4 * 100) * 0.1) ∧
    0 ≤ get_environmental_impact_score d ∧
    get_environmental_impact_score d ≤ 100 ∧
    get_environmental_impact_score ⟨8000, 0, 0, 0⟩ = 40 := by
  have b1 : 0 ≤ min 100 (d.co2_annual / 8000 * 100) :=
    le_min (by norm_num) (by positivity)
  have b2 : 0 ≤ min 100 (d.nox_annual / 120 * 100) :=
    le_min (by norm_num) (by positivity)
  have b3 : 0 ≤ min 100 (d.pm25_annual / 6 * 100) :=
    le_min (by norm_num) (by positivity)
  have b4 : 0 ≤ min 100 (d.so2_annual / (24/10) * 100) :=
    le_min (by norm_num) (by positivity)
  have u1 := min_le_left (100:ℚ) (d.co2_annual / 8000 * 100)
  have u2 := min_le_left (100:ℚ) (d.nox_annual / 120 * 100)
  have u3 := min_le_left (100:ℚ) (d.pm25_annual / 6 * 100)
  have u4 := min_le_left (100:ℚ) (d.so2_annual / (24/10) * 100)
  refine ⟨?_, ?_, ?_, ?_⟩
  · norm_num [get_environmental_impact_score]
  · exact pyRound1_nonneg _ (by nlinarith)
  · exact pyRound1_le_100 _ (by nlinarith)
  · norm_num [get_environmental_impact_score, pyRound1, pyRoundInt]

/-- C6 witness: the concrete score at annual CO2 = 8000, other pollutants
zero, together with the range bounds there. -/
theorem C6_impact_score_witness :
    get_environmental_impact_score ⟨8000, 0, 0, 0⟩ = 40 ∧
    0 ≤ get_environmental_impact_score ⟨8000, 0, 0, 0⟩ ∧
    get_environmental_impact_score ⟨8000, 0, 0, 0⟩ ≤ 100 := by
  obtain ⟨-, hnn, hle, h40⟩ := C6_impact_score ⟨8000, 0, 0, 0⟩
    (by norm_num) (by norm_num) (by norm_num) (by norm_num)
  exact ⟨h40, hnn, hle⟩

/-- C7: for positive mileage, efficiency and years (and a non-negative
numeric grid factor for the EV), the annual and lifetime CO2 totals of
`calculate_diesel_emissions` and `calculate_ev_emissions` are strictly
increasing in annual mileage, and the lifetime totals are strictly
increasing in years, all other arguments held fixed. -/
theorem C7_monotone (m m' mpg eff g y y' : ℚ) (hm : 0 < m) (hmm : m < m')
    (hmpg : 0 < mpg) (heff : 0 < eff) (hg : 0 ≤ g) (hy : 0 < y)
    (hyy : y < y') :
    ∃ r1 r2 r3, calculate_diesel_emissions m mpg y = some r1 ∧
      calculate_diesel_emissions m' mpg y = some r2 ∧
      calculate_diesel_emissions m mpg y' = some r3 ∧
      r1.co2_annual < r2.co2_annual ∧
      r1.co2_lifetime < r2.co2_lifetime ∧
      r1.co2_lifetime < r3.co2_lifetime ∧
      (calculate_ev_emissions m eff (GridMix.num g) y).co2_annual
        < (calculate_ev_emissions m' eff (GridMix.num g) y).co2_annual ∧
      (calculate_ev_emissions m eff (GridMix.num g) y).co2_lifetime
        < (calculate_ev_emissions m' eff (GridMix.num g) y).co2_lifetime ∧
      (calculate_ev_emissions m eff (GridMix.num g) y).co2_lifetime
        < (calculate_ev_emissions m eff (GridMix.num g) y').co2_lifetime := by
  have hq : m / mpg < m' / mpg := (div_lt_div_iff_of_pos_right hmpg).mpr hmm
  have hq0 : 0 < m / mpg := div_pos hm hmpg
  have he : m / 100 * eff < m' / 100 * eff :=
    mul_lt_mul_of_pos_right ((div_lt_div_iff_of_pos_right (by norm_num)).mpr hmm) heff
  have he0 : 0 < m / 100 * eff := mul_pos (by positivity) heff
  simp only [calculate_diesel_emissions, if_neg hmpg.ne',
    calculate_ev_emissions, _grid_factor, transmission_losses,
    grid_infrastructure, gallon_to_liter, diesel_factor,
    diesel_total_upstream]
  refine ⟨_, _, _, rfl, rfl, rfl, ?_, ?_, ?_, ?_, ?_, ?_⟩
  · dsimp only; nlinarith
  · dsimp only; nlinarith
  · dsimp only; nlinarith
  · dsimp only; nlinarith [mul_nonneg (sub_pos.mpr he).le hg]
  · dsimp only; nlinarith [mul_nonneg (sub_pos.mpr he).le hg,
      mul_nonneg (mul_nonneg (sub_pos.mpr he).le hg) hy.le]
  · dsimp only
    have hpos : 0 < m / 100 * eff * g * (1 + 5/100) + m / 100 * eff * (2/100) := by
      nlinarith [mul_nonneg he0.le hg]
    nlinarith [mul_pos hpos (sub_pos.mpr hyy)]

/-- C7 witness: strict increase of the EV annual total from mileage 12000 to
13000 at efficiency 34, grid factor 0.366, years 15. -/
theorem C7_monotone_witness :
    (calculate_ev_emissions 12000 34 (GridMix.num 0.366) 15).co2_annual
      < (calculate_ev_emissions 13000 34 (GridMix.num 0.366) 15).co2_annual := by
  obtain ⟨r1, r2, r3, -, -, -, -, -, -, hev, -, -⟩ :=
    C7_monotone 12000 13000 30 34 0.366 15 16 (by norm_num) (by norm_num)
      (by norm_num) (by norm_num) (by norm_num) (by norm_num) (by norm_num)
  exact hev

/-- C8 counterexample: with every optional parameter left at its default
(fuel "Regular Diesel", engine 2.0 L, standard "Euro 6", turbo=True),
`calculate_diesel_emissions_full` uses the combined consumption modifier
0.97 — not the neutral 1.0 — because `turbo` defaults to `True`, so its
annual CO2 total differs from the plain `calculate_diesel_emissions`. -/
theorem C8_counterexample :
    (calculate_diesel_emissions_full 12000 30 15 "Regular Diesel" 2 "Euro 6" true).map
        DieselFullResult.consumption_modifier = some (97/100) ∧
    ((97:ℚ)/100) ≠ 1 ∧
    ((calculate_diesel_emissions_full 12000 30 15 "Regular Diesel" 2 "Euro 6" true).map
        (fun r => r.core.co2_annual)).getD 0
      ≠ ((calculate_diesel_emissions 12000 30 15).map DieselResult.co2_annual).getD 0 := by
  have hs : ("Euro 6" = "Euro 5") = False :=
    eq_false (by decide : ¬ ("Euro 6" = "Euro 5"))
  refine ⟨?_, by norm_num, ?_⟩
  · norm_num [calculate_diesel_emissions_full, hs]
  · norm_num [calculate_diesel_emissions_full, calculate_diesel_emissions,
      hs, gallon_to_liter, diesel_factor, diesel_total_upstream]

/-- C8 amended: the consumption modifiers multiply (engine above 2.5 L:
+5%; turbocharged: −3%; Euro 5 standard: +2%), but the defaults are not
neutral: `turbo` defaults to `True`, giving a default combined modifier of
0.97. Only with `turbo=False`, engine ≤ 2.5 L, a standard other than
"Euro 5" and fuel "Regular Diesel" does the full computation equal the plain
unmodified diesel computation. -/
theorem C8_amended (m mpg y engine : ℚ) (ft std : String) (turbo : Bool)
    (hmpg : mpg ≠ 0) :
    (∃ rf, calculate_diesel_emissions_full m mpg y ft engine std turbo = some rf ∧
      rf.consumption_modifier =
        (if 5/2 < engine then (105:ℚ)/100 else 1)
          * (if turbo then (97:ℚ)/100 else 1)
          * (if std = "Euro 5" then (102:ℚ)/100 else 1)) ∧
    (turbo = false → ¬(5/2 < engine) → std ≠ "Euro 5" → ft = "Regular Diesel" →
      (calculate_diesel_emissions_full m mpg y ft engine std turbo).map
          DieselFullResult.core
        = calculate_diesel_emissions m mpg y) := by
  constructor
  · rw [calculate_diesel_emissions_full, if_neg hmpg]
    refine ⟨_, rfl, ?_⟩
    dsimp only
    by_cases hE : 5/2 < engine
    · have hne : engine ≠ 0 := ((by norm_num : (0:ℚ) < 5/2).trans hE).ne'
      rw [if_pos hE, if_pos ⟨hne, hE⟩]
      norm_num
    · rw [if_neg hE, if_neg (fun h => hE h.2)]
  · intro ht hE hS hF
    subst ht hF
    rw [calculate_diesel_emissions_full, calculate_diesel_emissions,
      if_neg hmpg, if_neg hmpg]
    simp only [if_neg (fun h => hE (And.right h)), if_neg hS, Bool.false_eq_true,
      if_false, if_pos rfl, Option.map_some']
    norm_num

/-- C8 amended witness: with turbo off and the remaining parameters at their
neutral values, the full computation at mileage 12000, mpg 30, years 15
coincides with the plain diesel computation. -/
theorem C8_amended_witness :
    (calculate_diesel_emissions_full 12000 30 15 "Regular Diesel" 2 "Euro 6" false).map
        DieselFullResult.core = calculate_diesel_emissions 12000 30 15 := by
  obtain ⟨-, h2⟩ :=
    C8_amended 12000 30 15 2 "Regular Diesel" "Euro 6" false (by norm_num)
  exact h2 rfl (by norm_num) (by decide) rfl

end EmissionCalculator
